import Mathlib

/-!
Verification development for the Spotify-to-YouTube playlist conversion
pipeline. The repository has three near-duplicate variants of the same
pipeline:

- `main.js` - the streaming variant (`/stream-convert`, SSE progress events);
- `src/unnamed/part_000` - the `/convert` variant with user-auth support;
- `src/Readme.md` - a documented variant with a `MAX_PAGES` fetch cap.

JavaScript strings are modelled as `List Char` (UTF-16 details are
irrelevant at this abstraction), JS `null`/`undefined` as `Option`,
thrown exceptions as `Except`, and the external services (Spotify catalog,
yt-search, YouTube Data API) as explicit oracle parameters. Network calls
issued by the pipeline are recorded in an explicit call trace so that
claims about which requests are (not) made can be stated.
-/

set_option autoImplicit false

namespace TuneChange

/-- Alphanumeric in the sense of the JS character class `[a-zA-Z0-9]`
(ASCII letters and digits). -/
def isAlnumChar (c : Char) : Bool :=
  (('a' ≤ c ∧ c ≤ 'z') ∨ ('A' ≤ c ∧ c ≤ 'Z') ∨ ('0' ≤ c ∧ c ≤ '9'))

/-- Whitespace characters removed by JS `String.prototype.trim`
(the ASCII ones plus NBSP; exotic Unicode space variants are omitted,
they never occur in the inputs the claims are about). -/
def isJsSpace (c : Char) : Bool :=
  c.toNat = 9 ∨ c.toNat = 10 ∨ c.toNat = 11 ∨ c.toNat = 12 ∨
    c.toNat = 13 ∨ c.toNat = 32 ∨ c.toNat = 160

/-- Embedding of JS `String.prototype.trim`: drop whitespace from both ends. -/
def jsTrim (l : List Char) : List Char :=
  ((l.dropWhile isJsSpace).reverse.dropWhile isJsSpace).reverse

/-- Embedding of JS `String.prototype.toUpperCase` (ASCII case mapping). -/
def jsToUpper (l : List Char) : List Char :=
  l.map Char.toUpper

/-- The characters of the literal `playlist` that the regex
`/playlist[/:]([a-zA-Z0-9]+)/` looks for. -/
def playlistChars : List Char :=
  ['p', 'l', 'a', 'y', 'l', 'i', 's', 't']

/-- The liked-songs sentinel `LIKED`. -/
def likedChars : List Char :=
  ['L', 'I', 'K', 'E', 'D']

/-- The liked-songs sentinel as a string. -/
def likedStr : String :=
  String.mk likedChars

/-- One attempt of the regex `/playlist[/:]([a-zA-Z0-9]+)/` anchored at the
start of `l`: the literal `playlist`, one of `/` or `:`, then a greedy
non-empty run of `[a-zA-Z0-9]` which is the captured group. -/
def matchPlaylistAt (l : List Char) : Option (List Char) :=
  if l.take 8 = playlistChars then
    match l.drop 8 with
    | [] => none
    | c :: rest =>
      if c = '/' ∨ c = ':' then
        let run := rest.takeWhile isAlnumChar
        if run = [] then none else some run
      else none
  else none

/-- Leftmost match of the regex `/playlist[/:]([a-zA-Z0-9]+)/`: JS
`String.prototype.match` tries each start position from the left and
returns the first captured group. -/
def findPlaylistId : List Char → Option (List Char)
  | [] => none
  | c :: cs =>
    match matchPlaylistAt (c :: cs) with
    | some r => some r
    | none => findPlaylistId cs

/-- Embedding of `parseSpotifyPlaylistId` from `main.js` (lines 61-67):
falsy input gives null; the trimmed input equal to `LIKED` case-insensitively
gives the sentinel; otherwise the regex capture; otherwise the raw trimmed
input whenever it is longer than 10 characters, else null. -/
def parseSpotifyPlaylistId (urlOrId : String) : Option String :=
  if urlOrId.data = [] then none
  else
    let url := jsTrim urlOrId.data
    if jsToUpper url = likedChars then some likedStr
    else
      match findPlaylistId url with
      | some m => some (String.mk m)
      | none => if url.length > 10 then some (String.mk url) else none

/-- Embedding of the regex `/\/(\d+)$/` used by the `part_000` parser:
a slash followed by a non-empty digit run at the end of the string,
capturing the digits. -/
def mockMatchEnd (url : List Char) : Option (List Char) :=
  let rds := url.reverse.takeWhile Char.isDigit
  if rds = [] then none
  else
    match url.reverse.drop rds.length with
    | '/' :: _ => some rds.reverse
    | _ => none

/-- Embedding of `parseSpotifyPlaylistId` from `src/unnamed/part_000`
(lines 73-86): like the `main.js` parser up to the regex, then the
mock `/\/(\d+)$/` match, then the whole input if it is fully alphanumeric,
else null. -/
def parseSpotifyPlaylistIdP0 (urlOrId : String) : Option String :=
  if urlOrId.data = [] then none
  else
    let url := jsTrim urlOrId.data
    if jsToUpper url = likedChars then some likedStr
    else
      match findPlaylistId url with
      | some m => some (String.mk m)
      | none =>
        match mockMatchEnd url with
        | some m => some (String.mk m)
        | none =>
          if url ≠ [] ∧ url.all isAlnumChar then some (String.mk url) else none

/-- A raw Spotify API track object (`item.track` in a page of results).
The Spotify API guarantees at least one artist, so the first artist is a
separate field; `item.track.artists[0].name` is `artist0`. -/
structure RawTrack where
  name : String
  artist0 : String
  restArtists : List String
  durationMs : Nat
  uri : String
deriving DecidableEq, Repr

/-- One element of `data.items` in a Spotify track page; `track` is null for
removed or unavailable entries. -/
structure Item where
  track : Option RawTrack
deriving DecidableEq, Repr

/-- One HTTP response of the paginated Spotify track listing: the status
code, the `items` array and whether `data.next` is non-null. A fetch run is
modelled against the list of responses the cursor chain produces. -/
structure Page where
  status : Nat
  items : List Item
  next : Bool
deriving DecidableEq, Repr

/-- JS `fetch` response `ok` flag: status in the 200 range. -/
def Page.ok (p : Page) : Bool :=
  200 ≤ p.status ∧ p.status < 300

/-- The normalized track record kept by the `main.js` fetcher:
`{ name: item.track.name, artist: item.track.artists[0].name }`. -/
structure MTrack where
  name : String
  artist : String
deriving DecidableEq, Repr

/-- The normalized track record kept by the `part_000` and Readme fetchers:
name, all artist names, duration and uri. -/
structure PTrack where
  name : String
  artists : List String
  durationMs : Nat
  uri : String
deriving DecidableEq, Repr

/-- Normalization of one page item in `main.js`: null tracks are skipped. -/
def mTrackOfItem (it : Item) : Option MTrack :=
  it.track.map fun t => { name := t.name, artist := t.artist0 }

/-- Normalization of one page item in `part_000` and the Readme variant. -/
def pTrackOfItem (it : Item) : Option PTrack :=
  it.track.map fun t =>
    { name := t.name, artists := t.artist0 :: t.restArtists,
      durationMs := t.durationMs, uri := t.uri }

/-- The tracks a page contributes in the `main.js` fetcher. -/
def pageTracksM (p : Page) : List MTrack :=
  p.items.filterMap mTrackOfItem

/-- The tracks a page contributes in the `part_000` and Readme fetchers. -/
def pageTracksP (p : Page) : List PTrack :=
  p.items.filterMap pTrackOfItem

/-- Which bearer token a Spotify request carries: the user-delegated token or
the app-level client-credentials token. -/
inductive TokenKind where
  | user
  | app
deriving DecidableEq, Repr

/-- An external call issued by the pipeline, for stating which requests are
(or are not) made: a Spotify track-page fetch (with endpoint kind and token
kind), the Spotify playlist-name fetch, a YouTube playlists.list lookup, a
YouTube playlists.insert creation, and a YouTube playlistItems.insert. -/
inductive Call where
  | spotFetch (liked : Bool) (tok : TokenKind)
  | spotNameFetch (tok : TokenKind)
  | ytLookup (id : String)
  | ytCreate (title : String)
  | ytInsert (vid : String)
deriving DecidableEq, Repr

/-- Embedding of `fetchAllSpotifyTracks` from `main.js` (lines 69-87),
instrumented with the call trace. Each loop iteration fetches one page; a
non-success response returns the accumulated tracks if any were gathered and
null otherwise; items with a null track are skipped; the loop follows
`data.next` until it is absent. -/
def fetchAllSpotifyTracks (liked : Bool) (tok : TokenKind) :
    List Page → List MTrack → Option (List MTrack) × List Call
  | [], acc => (some acc, [])
  | p :: rest, acc =>
    if p.ok then
      if p.next then
        let r := fetchAllSpotifyTracks liked tok rest (acc ++ pageTracksM p)
        (r.1, Call.spotFetch liked tok :: r.2)
      else (some (acc ++ pageTracksM p), [Call.spotFetch liked tok])
    else ((if acc = [] then none else some acc), [Call.spotFetch liked tok])

/-- Errors thrown by the `part_000` and Readme fetchers. -/
inductive FetchErr where
  | signInRequired
  | httpFail (status : Nat)
  | httpFailAfterRetry (status : Nat)
deriving DecidableEq, Repr

/-- Embedding of the fetch loop of `fetchAllSpotifyTracks` from
`src/unnamed/part_000` (lines 119-157), instrumented with the call trace.
A 401 on a public-playlist app-token request triggers one retry with a fresh
app token; note the source then re-checks `res.ok` on the original 401
response, so the 401 path always throws. Any other non-success response
throws; successful pages accumulate the non-null tracks and follow
`data.next`. -/
def fetchLoopP0 (liked hasUser : Bool) (tok : TokenKind) :
    List Page → List PTrack → Except FetchErr (List PTrack) × List Call
  | [], acc => (Except.ok acc, [])
  | p :: rest, acc =>
    if p.status = 401 ∧ liked = false ∧ hasUser = false then
      match rest with
      | [] =>
        (Except.error (FetchErr.httpFailAfterRetry 0),
         [Call.spotFetch liked tok, Call.spotFetch liked TokenKind.app])
      | q :: _ =>
        if q.ok then
          (Except.error (FetchErr.httpFail p.status),
           [Call.spotFetch liked tok, Call.spotFetch liked TokenKind.app])
        else
          (Except.error (FetchErr.httpFailAfterRetry q.status),
           [Call.spotFetch liked tok, Call.spotFetch liked TokenKind.app])
    else if p.ok then
      if p.next then
        let r := fetchLoopP0 liked hasUser tok rest (acc ++ pageTracksP p)
        (r.1, Call.spotFetch liked tok :: r.2)
      else (Except.ok (acc ++ pageTracksP p), [Call.spotFetch liked tok])
    else (Except.error (FetchErr.httpFail p.status), [Call.spotFetch liked tok])

/-- Embedding of `fetchAllSpotifyTracks` from `src/unnamed/part_000`
(lines 89-158): a liked-songs request without user tokens throws the
sign-in-required error before any catalog request; otherwise the token is the
user token when present and the app token otherwise, and the loop runs. -/
def fetchAllSpotifyTracksP0 (playlistId : String) (hasUserToken : Bool)
    (pages : List Page) : Except FetchErr (List PTrack) × List Call :=
  let liked := playlistId == likedStr
  if liked ∧ hasUserToken = false then (Except.error FetchErr.signInRequired, [])
  else
    fetchLoopP0 liked hasUserToken
      (if hasUserToken then TokenKind.user else TokenKind.app) pages []

/-- The page cap of the Readme variant fetcher (`MAX_PAGES`). -/
def MAX_PAGES : Nat := 2

/-- Embedding of the fetch loop of `fetchAllSpotifyTracks` from
`src/Readme.md` (lines 132-185): like the `part_000` loop but without the
401 retry and with the loop condition `nextUrl && pages < MAX_PAGES`; the
first argument is the remaining page budget. -/
def fetchAllSpotifyTracksRm : Nat → List Page → List PTrack →
    Except FetchErr (List PTrack)
  | 0, _, acc => Except.ok acc
  | _ + 1, [], acc => Except.ok acc
  | fuel + 1, p :: rest, acc =>
    if p.ok then
      if p.next then fetchAllSpotifyTracksRm fuel rest (acc ++ pageTracksP p)
      else Except.ok (acc ++ pageTracksP p)
    else Except.error (FetchErr.httpFail p.status)

/-- The pages actually reachable through the next-cursor chain: every page up
to and including the first one whose `next` is null. -/
def chainPages : List Page → List Page
  | [] => []
  | p :: rest => if p.next then p :: chainPages rest else [p]

/-- Concatenation of a list of lists (used to state the fetchers' outputs
page by page). -/
def catLists {α : Type} : List (List α) → List α
  | [] => []
  | l :: ls => l ++ catLists ls

/-- A candidate video returned by the yt-search facility. -/
structure YVideo where
  videoId : String
  title : String
deriving DecidableEq, Repr

/-- The object the yt-search promise resolves to (its `videos` array in
ranking order). -/
structure SearchResult where
  videos : List YVideo
deriving DecidableEq, Repr

/-- The body of `searchYouTube` from `main.js` (lines 89-94): the `yts`
oracle either rejects (`Except.error`) or resolves, possibly to a falsy
value; on a truthy result with a non-empty `videos` array the first video id
is returned, otherwise null. -/
def searchYouTubeBody (yts : String → Except String (Option SearchResult))
    (q : String) : Except String (Option String) :=
  match yts q with
  | Except.error e => Except.error e
  | Except.ok none => Except.ok none
  | Except.ok (some r) =>
    Except.ok (match r.videos with
      | [] => none
      | v :: _ => some v.videoId)

/-- Embedding of `searchYouTube` from `main.js`: the whole body is wrapped
in try/catch and any rejection is translated to null. -/
def searchYouTube (yts : String → Except String (Option SearchResult))
    (q : String) : Option String :=
  match searchYouTubeBody yts q with
  | Except.error _ => none
  | Except.ok v => v

/-- The body of `searchYouTubeMostViewed` from `src/unnamed/part_000`
(lines 168-193): the search races a 5-second timeout (`slow q` records that
the timeout rejection wins); a null resolved value makes the `r.videos`
access throw; otherwise the first video of a non-empty array is picked. -/
def searchYouTubeMostViewedBody (yts : String → Except String (Option SearchResult))
    (slow : String → Bool) (q : String) : Except String (Option String) :=
  if slow q then Except.error "Search timed out"
  else
    match yts q with
    | Except.error e => Except.error e
    | Except.ok none => Except.error "TypeError"
    | Except.ok (some r) =>
      Except.ok (match r.videos with
        | [] => none
        | v :: _ => some v.videoId)

/-- Embedding of `searchYouTubeMostViewed` from `src/unnamed/part_000`:
the try/catch around the race translates every rejection to null. -/
def searchYouTubeMostViewed (yts : String → Except String (Option SearchResult))
    (slow : String → Bool) (q : String) : Option String :=
  match searchYouTubeMostViewedBody yts slow q with
  | Except.error _ => none
  | Except.ok v => v

/-- Outcome of one `youtube.playlistItems.insert` call as classified by the
`main.js` per-track handler: success, a failure whose first error reason is
`playlistNotFound`, or any other failure. -/
inductive InsertOutcome where
  | inserted
  | insertFailed
  | playlistNotFound
deriving DecidableEq, Repr

/-- The external-world dependencies of the `main.js` per-track loop:
the search result per query and the insert outcome per video id. -/
structure ConvEnv where
  search : String → Option String
  insert : String → InsertOutcome

/-- One server-sent event of the `/stream-convert` route. -/
inductive Ev where
  | info (msg : String) (total : Nat)
  | trackOk (name : String) (count : Nat)
  | trackFail (name : String) (reason : String) (count : Nat)
  | fatal (msg : String)
  | done (url : String)
deriving DecidableEq, Repr

/-- The search query built by the `main.js` loop for one track. -/
def mainQuery (t : MTrack) : String :=
  t.name ++ " " ++ t.artist ++ " official audio"

/-- Embedding of the per-track loop of `/stream-convert` in `main.js`
(lines 345-363), instrumented with the call trace and a completion flag.
For each track in order: search; on a match, insert - a `playlistNotFound`
failure sends a permission error and returns from the handler (completion
false), any other failure sends a per-track failure event and continues; an
unmatched track sends a not-found failure event and continues. -/
def convertLoop (env : ConvEnv) (ytId : String) :
    Nat → List MTrack → List Ev × List Call × Bool
  | _, [] => ([], [], true)
  | i, t :: rest =>
    match env.search (mainQuery t) with
    | some vid =>
      match env.insert vid with
      | InsertOutcome.inserted =>
        let r := convertLoop env ytId (i + 1) rest
        (Ev.trackOk t.name (i + 1) :: r.1, Call.ytInsert vid :: r.2.1, r.2.2)
      | InsertOutcome.playlistNotFound =>
        ([Ev.fatal "Permission Error: Logged into wrong Brand Account?"],
         [Call.ytInsert vid], false)
      | InsertOutcome.insertFailed =>
        let r := convertLoop env ytId (i + 1) rest
        (Ev.trackFail t.name "Insert Failed" (i + 1) :: r.1,
         Call.ytInsert vid :: r.2.1, r.2.2)
    | none =>
      let r := convertLoop env ytId (i + 1) rest
      (Ev.trackFail t.name "Not Found" (i + 1) :: r.1, r.2.1, r.2.2)

/-- The external-world dependencies of one `/stream-convert` request:
session state, the `playlists.list` lookup result by id (items count, or an
API error), the Spotify page responses, the playlist-name metadata fetch
result (`d.name` when truthy), the id a `playlists.insert` would return, and
the per-track loop environment. -/
structure StreamEnv where
  sessionGoogle : Bool
  sessionSpotify : Bool
  lookupItems : String → Except String Nat
  pages : List Page
  nameFetch : Option String
  createdId : String
  conv : ConvEnv

/-- The fetch-convert phase of `/stream-convert` in `main.js`
(lines 320-364), entered after the existing-id check: fetch the Spotify
tracks (a null result sends the generic access-failure error); if no
existing id was given, resolve the title (liked songs, the fetched playlist
name, or the default) and create a private playlist; then emit the info
event, run the per-track loop, and emit the done event when the loop
completed. -/
def streamPhase2 (env : StreamEnv) (pid : Option String) (tok : TokenKind)
    (ytId0 : String) : List Ev × List Call :=
  let liked := pid == some likedStr
  let fr := fetchAllSpotifyTracks liked tok env.pages []
  match fr.1 with
  | none => ([Ev.fatal "Spotify access failed. Check URL or privacy."], fr.2)
  | some tracks =>
    let creation : String × List Call :=
      if ytId0 = "" then
        (env.createdId,
         (if liked then [] else [Call.spotNameFetch tok]) ++
           [Call.ytCreate (if liked then "Liked Songs"
             else
               match env.nameFetch with
               | some n => n
               | none => "TuneChange Playlist")])
      else (ytId0, [])
    let lr := convertLoop env.conv creation.1 0 tracks
    (Ev.info ("Found " ++ toString tracks.length ++ " tracks. Starting transfer...")
        tracks.length :: lr.1 ++
      (if lr.2.2 then
        [Ev.done ("https://www.youtube.com/playlist?list=" ++ creation.1)]
       else []),
     fr.2 ++ creation.2 ++ lr.2.1)

/-- Embedding of the `/stream-convert` route of `main.js` (lines 282-367):
parse the playlist reference; require a Google session; pick the Spotify
token (the user token when a Spotify session exists, the app token
otherwise); when a non-empty existing YouTube playlist id is supplied, look
it up first - an API error or an empty items array is terminal; then run the
fetch-convert phase. -/
def streamConvert (env : StreamEnv) (playlistUrl : String)
    (existingId : Option String) : List Ev × List Call :=
  let pid := parseSpotifyPlaylistId playlistUrl
  if env.sessionGoogle = false then ([Ev.fatal "Login to YouTube first"], [])
  else
    let tok := if env.sessionSpotify then TokenKind.user else TokenKind.app
    let ytId0 : String :=
      match existingId with
      | some s => String.mk (jsTrim s.data)
      | none => ""
    if ytId0 = "" then streamPhase2 env pid tok ytId0
    else
      match env.lookupItems ytId0 with
      | Except.error e =>
        ([Ev.fatal ("YouTube API Error: " ++ e)], [Call.ytLookup ytId0])
      | Except.ok 0 =>
        ([Ev.fatal "YouTube Playlist ID not found."], [Call.ytLookup ytId0])
      | Except.ok (_ + 1) =>
        let r := streamPhase2 env pid tok ytId0
        (r.1, Call.ytLookup ytId0 :: r.2)

/-- The request body built by the playlist-creation branch of
`createYouTubePlaylistAndAddVideos` in `src/unnamed/part_000`
(lines 205-230): fall back to default title and description, truncate the
title to 100 and the description to 5000 characters, default language `en`,
privacy status `private`. -/
structure YtPlaylistBody where
  title : String
  description : String
  defaultLanguage : String
  privacyStatus : String
deriving DecidableEq, Repr

/-- Embedding of the creation request body of
`createYouTubePlaylistAndAddVideos` from `src/unnamed/part_000`. -/
def createYouTubePlaylistBody (title description : String) : YtPlaylistBody :=
  let t := if title.data ≠ [] ∧ jsTrim title.data ≠ [] then title
    else "Converted Spotify Playlist"
  let d := if description.data ≠ [] then description
    else "Converted playlist generated automatically"
  { title := String.mk (t.data.take 100),
    description := String.mk (d.data.take 5000),
    defaultLanguage := "en",
    privacyStatus := "private" }

/-- The playlist-creation request body sent by `/stream-convert` in
`main.js` (lines 336-339): the resolved title is sent as-is (no truncation)
and there is no description field; privacy status is `private`. -/
structure MainPlaylistBody where
  title : String
  privacyStatus : String
deriving DecidableEq, Repr

/-- Embedding of the creation request body of `/stream-convert` in
`main.js`. -/
def mainCreatePlaylistBody (title : String) : MainPlaylistBody :=
  { title := title, privacyStatus := "private" }

/-- A character matched by the JS class `[\u0000-\u001f\u007f-\u009f]`
(control characters stripped from search queries). -/
def isControlChar (c : Char) : Bool :=
  c.toNat ≤ 31 ∨ (127 ≤ c.toNat ∧ c.toNat ≤ 159)

/-- Embedding of `buildYouTubeQuery` from `src/Readme.md` (lines 186-191):
name, first artist (empty when absent) and the `official audio` suffix,
with control characters stripped and the result trimmed. -/
def buildYouTubeQuery (t : PTrack) : String :=
  let artist := match t.artists with
    | [] => ""
    | a :: _ => a
  String.mk (jsTrim
    ((t.name ++ " " ++ artist ++ " official audio").data.filter
      (fun c => !isControlChar c)))

/-- The `results` accumulator of `createYouTubePlaylistAndAddVideos` in
`src/Readme.md`: video ids that were inserted, and (video id, reason) pairs
for rejected inserts. -/
structure RmResults where
  added : List String
  failed : List (String × String)
deriving DecidableEq, Repr

/-- Embedding of the insert loop of `createYouTubePlaylistAndAddVideos`
from `src/Readme.md` (lines 235-257): null entries are skipped; a
successful insert appends the video id to `added`; a failed insert appends
the video id and the error message to `failed`; the run never aborts. -/
def rmAddVideos (insert : String → Except String Unit) :
    List (Option String) → RmResults
  | [] => { added := [], failed := [] }
  | none :: rest => rmAddVideos insert rest
  | some vid :: rest =>
    let r := rmAddVideos insert rest
    match insert vid with
    | Except.ok _ => { added := vid :: r.added, failed := r.failed }
    | Except.error msg => { added := r.added, failed := (vid, msg) :: r.failed }

/-- The destination calls issued by the Readme insert loop: one
`playlistItems.insert` per non-null video id, in order. -/
def rmInsertCalls : List (Option String) → List Call
  | [] => []
  | none :: rest => rmInsertCalls rest
  | some vid :: rest => Call.ytInsert vid :: rmInsertCalls rest

/-- Whether an entry of the video-id list is non-null and its insert
succeeds. -/
def rmInsertOk (insert : String → Except String Unit) : Option String → Bool
  | some vid =>
    (match insert vid with
     | Except.ok _ => true
     | Except.error _ => false)
  | none => false

/-- Embedding of `createYouTubePlaylistAndAddVideos` from `src/Readme.md`
(lines 211-257), instrumented with the call trace: a supplied (truthy)
existing id is used directly - no lookup call is made; only when no id is
supplied is a creation call issued (its failure is the fatal
creation-failed error); then the insert loop runs and the function returns
normally with the playlist id and the results. -/
def rmCreateAndAddVideos (createdId : Except String String)
    (insert : String → Except String Unit) (title : String)
    (videoIds : List (Option String)) (existingPlaylistId : Option String) :
    Except String (String × RmResults) × List Call :=
  let pid0 : String :=
    match existingPlaylistId with
    | some s => s
    | none => ""
  if pid0 = "" then
    match createdId with
    | Except.error e =>
      (Except.error ("Playlist creation failed: " ++ e),
       [Call.ytCreate (String.mk (title.data.take 100))])
    | Except.ok newId =>
      (Except.ok (newId, rmAddVideos insert videoIds),
       Call.ytCreate (String.mk (title.data.take 100)) :: rmInsertCalls videoIds)
  else
    (Except.ok (pid0, rmAddVideos insert videoIds), rmInsertCalls videoIds)

/-- The per-track search results of the `/convert` route in `src/Readme.md`
(lines 872-879): one `searchYouTubeMostViewed` outcome per track, in order. -/
def rmVideoIds (search : String → Option String) (tracks : List PTrack) :
    List (Option String) :=
  tracks.map (fun t => search (buildYouTubeQuery t))

/-- The report assembled by the `/convert` route in `src/Readme.md`
(lines 881-901): the null search results are filtered out
(`videoIds.filter(v => v !== null)`) before the writer, and the response
report is the writer results over the remaining video ids. -/
def rmConvertReport (search : String → Option String)
    (insert : String → Except String Unit) (tracks : List PTrack) : RmResults :=
  rmAddVideos insert ((rmVideoIds search tracks).filter Option.isSome)

/-- The outcome event the loop produces for one track when no insert failure
is terminal (used to state the loop's behavior in closed form). -/
def rowEv (env : ConvEnv) (i : Nat) (t : MTrack) : Ev :=
  match env.search (mainQuery t) with
  | some vid =>
    match env.insert vid with
    | InsertOutcome.inserted => Ev.trackOk t.name (i + 1)
    | _ => Ev.trackFail t.name "Insert Failed" (i + 1)
  | none => Ev.trackFail t.name "Not Found" (i + 1)

/-- The per-track events of a run that never hits a terminal insert error. -/
def rowEvents (env : ConvEnv) : Nat → List MTrack → List Ev
  | _, [] => []
  | i, t :: rest => rowEv env i t :: rowEvents env (i + 1) rest

/-- The insert calls of a run that never hits a terminal insert error. -/
def insCalls (env : ConvEnv) : List MTrack → List Call
  | [] => []
  | t :: rest =>
    match env.search (mainQuery t) with
    | some vid => Call.ytInsert vid :: insCalls env rest
    | none => insCalls env rest

/-- The track name carried by a per-track progress event. -/
def evName : Ev → Option String
  | Ev.trackOk n _ => some n
  | Ev.trackFail n _ _ => some n
  | _ => none

/-- Whether an event reports a successful insert. -/
def isOkEv : Ev → Bool
  | Ev.trackOk _ _ => true
  | _ => false

/-- Whether an event reports a per-track failure. -/
def isFailEv : Ev → Bool
  | Ev.trackFail _ _ _ => true
  | _ => false

/-- Whether the matcher finds a video for a track (membership in the
matched subset S of the claims). -/
def matchedP (env : ConvEnv) (t : MTrack) : Bool :=
  (env.search (mainQuery t)).isSome

/-- Whether a track is matched and its insert succeeds. -/
def successP (env : ConvEnv) (t : MTrack) : Bool :=
  match env.search (mainQuery t) with
  | some vid =>
    match env.insert vid with
    | InsertOutcome.inserted => true
    | _ => false
  | none => false

section SanityChecks

/-- A first track used in concrete runs. -/
def tA : MTrack := { name := "Song A", artist := "X" }

/-- A second track used in concrete runs. -/
def tB : MTrack := { name := "Song B", artist := "Y" }

/-- A third track used in concrete runs. -/
def tC : MTrack := { name := "Song C", artist := "Z" }

/-- The raw catalog entry behind `tA`. -/
def rawA : RawTrack :=
  { name := "Song A", artist0 := "X", restArtists := [],
    durationMs := 1000, uri := "spotify:track:a" }

/-- A page holding one available track and one removed entry. -/
def pageA : Page :=
  { status := 200,
    items := [{ track := some rawA }, { track := none }],
    next := true }

/-- A failing page response. -/
def pageFail : Page := { status := 401, items := [], next := false }

/-- The raw catalog entry behind `tB`. -/
def rawB : RawTrack :=
  { name := "Song B", artist0 := "Y", restArtists := ["Y2"],
    durationMs := 2000, uri := "spotify:track:b" }

/-- The raw catalog entry behind `tC`. -/
def rawC : RawTrack :=
  { name := "Song C", artist0 := "Z", restArtists := [],
    durationMs := 3000, uri := "spotify:track:c" }

/-- A last page of a cursor chain holding two tracks. -/
def pageB : Page :=
  { status := 200,
    items := [{ track := some rawB }, { track := some rawC }],
    next := false }

/-- A loop environment whose insert always reports `playlistNotFound`. -/
def cexConv : ConvEnv :=
  { search := fun _ => some "V1",
    insert := fun _ => InsertOutcome.playlistNotFound }

/-- A loop environment where the second track is unmatched and every insert
fails non-terminally. -/
def wConv2 : ConvEnv :=
  { search := fun q => if q = mainQuery tB then none else some "V",
    insert := fun _ => InsertOutcome.insertFailed }

/-- A loop environment realizing the spec scenario: A and C matched, B
unmatched, the insert for A succeeds and the insert for C is rejected. -/
def wConv3 : ConvEnv :=
  { search := fun q =>
      if q = mainQuery tB then none
      else if q = mainQuery tA then some "VA"
      else some "VC",
    insert := fun v =>
      if v = "VA" then InsertOutcome.inserted else InsertOutcome.insertFailed }

/-- The first track in `PTrack` form. -/
def ptA : PTrack :=
  { name := "Song A", artists := ["X"], durationMs := 1000,
    uri := "spotify:track:a" }

/-- The second track in `PTrack` form. -/
def ptB : PTrack :=
  { name := "Song B", artists := ["Y", "Y2"], durationMs := 2000,
    uri := "spotify:track:b" }

/-- A search oracle matching only the first track. -/
def searchW3 : String → Option String :=
  fun q => if q = buildYouTubeQuery ptA then some "VA" else none

/-- An insert oracle that always succeeds. -/
def insertW3 : String → Except String Unit :=
  fun _ => Except.ok ()

/-- A 101-character playlist title. -/
def longTitle : String :=
  String.mk (List.replicate 101 'a')

/-- A stream-convert environment whose Spotify playlist-name fetch yields a
101-character name and whose matcher finds nothing. -/
def envLongName : StreamEnv :=
  { sessionGoogle := true,
    sessionSpotify := true,
    lookupItems := fun _ => Except.ok 1,
    pages := [pageB],
    nameFetch := some longTitle,
    createdId := "NEWID",
    conv := { search := fun _ => none, insert := fun _ => InsertOutcome.inserted } }

/-- A stream-convert environment whose destination knows the playlist id
`PLOK` (one item) but not `PLX` (zero items). -/
def envLookup : StreamEnv :=
  { sessionGoogle := true,
    sessionSpotify := true,
    lookupItems := fun s => if s = "PLX" then Except.ok 0 else Except.ok 1,
    pages := [pageA, pageB],
    nameFetch := some "My Mix",
    createdId := "NEWID",
    conv := wConv3 }

/-- A concrete stream-convert environment with no Spotify session and a
catalog that rejects the liked-songs request made with the app token. -/
def envLiked : StreamEnv :=
  { sessionGoogle := true,
    sessionSpotify := false,
    lookupItems := fun _ => Except.ok 1,
    pages := [pageFail],
    nameFetch := none,
    createdId := "NEWID",
    conv := { search := fun _ => some "V1", insert := fun _ => InsertOutcome.inserted } }

end SanityChecks

example : parseSpotifyPlaylistId "https://open.spotify.com/playlist/37iAbC9?si=xyz" =
    some "37iAbC9" := by decide
example : parseSpotifyPlaylistId "  liked " = some "LIKED" := by decide
example : parseSpotifyPlaylistId "short" = none := by decide
example : parseSpotifyPlaylistId "longerthan10!" = some "longerthan10!" := by decide
example : parseSpotifyPlaylistIdP0 "spotify:playlist:AB12cd" = some "AB12cd" := by decide
example : parseSpotifyPlaylistIdP0 "mock/12345" = some "12345" := by decide
example : parseSpotifyPlaylistIdP0 "longerthan10!" = none := by decide
example : parseSpotifyPlaylistIdP0 "Bare42Id" = some "Bare42Id" := by decide

example :
    (fetchAllSpotifyTracks false TokenKind.app [pageA, pageFail] []).1 =
      some [tA] := by decide

example :
    (fetchAllSpotifyTracks false TokenKind.app [pageFail] []).1 = none := by
  decide

example :
    streamConvert envLiked "LIKED" none =
      ([Ev.fatal "Spotify access failed. Check URL or privacy."],
       [Call.spotFetch true TokenKind.app]) := by decide

section RegexLemmas

theorem takeWhile_append_eq {p : Char → Bool} (id post : List Char)
    (hid : ∀ c ∈ id, p c = true)
    (hpost : ∀ c, post.head? = some c → p c = false) :
    (id ++ post).takeWhile p = id := by
  induction id with
  | nil =>
    cases post with
    | nil => rfl
    | cons c cs => simp [List.takeWhile_cons, hpost c rfl]
  | cons a as ih =>
    have ha : p a = true := hid a (by simp)
    simp only [List.cons_append, List.takeWhile_cons, ha, if_true]
    rw [ih (fun c hc => hid c (by simp [hc]))]

theorem matchPlaylistAt_pattern (sep : Char) (id post : List Char)
    (hsep : sep = '/' ∨ sep = ':')
    (hid : id ≠ []) (hida : ∀ c ∈ id, isAlnumChar c = true)
    (hpost : ∀ c, post.head? = some c → isAlnumChar c = false) :
    matchPlaylistAt (playlistChars ++ (sep :: (id ++ post))) = some id := by
  have htake : (playlistChars ++ (sep :: (id ++ post))).take 8 = playlistChars :=
    @List.take_left' Char playlistChars (sep :: (id ++ post)) 8 rfl
  have hdrop : (playlistChars ++ (sep :: (id ++ post))).drop 8 = sep :: (id ++ post) :=
    @List.drop_left' Char playlistChars (sep :: (id ++ post)) 8 rfl
  unfold matchPlaylistAt
  rw [htake, hdrop]
  simp only [if_pos rfl, if_pos hsep]
  rw [takeWhile_append_eq id post hida hpost]
  simp [hid]

theorem findPlaylistId_append (pre tail : List Char) (r : List Char)
    (hpre : ∀ k, k < pre.length → matchPlaylistAt ((pre ++ tail).drop k) = none)
    (hmatch : matchPlaylistAt tail = some r) :
    findPlaylistId (pre ++ tail) = some r := by
  induction pre with
  | nil =>
    cases tail with
    | nil => simp [matchPlaylistAt, playlistChars] at hmatch
    | cons c cs => simp [findPlaylistId, hmatch]
  | cons a as ih =>
    have h0 := hpre 0 (by simp)
    simp only [List.drop_zero] at h0
    have h0' : matchPlaylistAt (a :: (as ++ tail)) = none := by
      simpa using h0
    show findPlaylistId (a :: (as ++ tail)) = some r
    unfold findPlaylistId
    rw [h0']
    exact ih (fun k hk => by
      have := hpre (k + 1) (by simpa using Nat.succ_lt_succ hk)
      simpa using this)

theorem parse_eval_of_find (s : String) (hne : s.data ≠ [])
    (hupper : jsToUpper (jsTrim s.data) ≠ likedChars)
    (r : List Char) (hfind : findPlaylistId (jsTrim s.data) = some r) :
    parseSpotifyPlaylistId s = some (String.mk r) := by
  unfold parseSpotifyPlaylistId
  rw [if_neg hne]
  simp only [hupper, hfind, if_neg]
  simp [hupper]

theorem parse_p0_eval_of_find (s : String) (hne : s.data ≠ [])
    (hupper : jsToUpper (jsTrim s.data) ≠ likedChars)
    (r : List Char) (hfind : findPlaylistId (jsTrim s.data) = some r) :
    parseSpotifyPlaylistIdP0 s = some (String.mk r) := by
  unfold parseSpotifyPlaylistIdP0
  rw [if_neg hne]
  simp [hupper, hfind]

end RegexLemmas


/-- C6: for every input string containing (at its first such occurrence) a
substring of the form `playlist/<id>` or `playlist:<id>`, where `<id>` is a
non-empty maximal alphanumeric identifier, both reference parsers return
exactly `<id>`. -/
theorem parser_extracts_playlist_id (s : String) (pre id post : List Char)
    (sep : Char)
    (hne : s.data ≠ [])
    (htrim : jsTrim s.data = pre ++ (playlistChars ++ (sep :: (id ++ post))))
    (hsep : sep = '/' ∨ sep = ':')
    (hid : id ≠ [])
    (hida : ∀ c ∈ id, isAlnumChar c = true)
    (hpost : ∀ c, post.head? = some c → isAlnumChar c = false)
    (hfirst : ∀ k, k < pre.length → matchPlaylistAt ((jsTrim s.data).drop k) = none) :
    parseSpotifyPlaylistId s = some (String.mk id) ∧
      parseSpotifyPlaylistIdP0 s = some (String.mk id) := by
  have hfind : findPlaylistId (jsTrim s.data) = some id := by
    rw [htrim]
    exact findPlaylistId_append pre _ id
      (fun k hk => htrim ▸ hfirst k hk)
      (matchPlaylistAt_pattern sep id post hsep hid hida hpost)
  have hupper : jsToUpper (jsTrim s.data) ≠ likedChars := by
    intro h
    have h5 : (jsTrim s.data).length = 5 := by
      have hlen := congrArg List.length h
      simpa [jsToUpper, likedChars] using hlen
    rw [htrim] at h5
    have hpos : 0 < id.length := List.length_pos.mpr hid
    simp [List.length_append, playlistChars] at h5
    omega
  exact ⟨parse_eval_of_find s hne hupper id hfind,
    parse_p0_eval_of_find s hne hupper id hfind⟩

/-- Witness for C6 at a concrete Spotify playlist URL. -/
theorem parser_extracts_playlist_id_witness :
    parseSpotifyPlaylistId "https://open.spotify.com/playlist/37iX2abC5?si=q1" =
        some (String.mk ['3', '7', 'i', 'X', '2', 'a', 'b', 'C', '5']) ∧
      parseSpotifyPlaylistIdP0 "https://open.spotify.com/playlist/37iX2abC5?si=q1" =
        some (String.mk ['3', '7', 'i', 'X', '2', 'a', 'b', 'C', '5']) :=
  parser_extracts_playlist_id "https://open.spotify.com/playlist/37iX2abC5?si=q1"
    "https://open.spotify.com/".data ['3', '7', 'i', 'X', '2', 'a', 'b', 'C', '5']
    "?si=q1".data '/'
    (by decide) (by decide) (by decide) (by decide) (by decide) (by decide)
    (by decide)

/-- C10: in the streaming variant parser, a non-empty input whose trimmed
form is not the liked-songs sentinel and contains no `playlist/<id>` or
`playlist:<id>` pattern is returned verbatim whenever its trimmed length
exceeds 10 characters (no character validation), and yields null at length
10 or below. -/
theorem parser_fallback_bare_id (s : String) (hne : s.data ≠ [])
    (hupper : jsToUpper (jsTrim s.data) ≠ likedChars)
    (hnom : findPlaylistId (jsTrim s.data) = none) :
    parseSpotifyPlaylistId s =
      (if 10 < (jsTrim s.data).length then some (String.mk (jsTrim s.data))
       else none) := by
  unfold parseSpotifyPlaylistId
  rw [if_neg hne]
  simp [hupper, hnom]

/-- Witness for C10: a 13-character input with non-alphanumeric characters
is returned verbatim, and a 6-character input yields null. -/
theorem parser_fallback_bare_id_witness :
    parseSpotifyPlaylistId "abc-defghijk!" =
        (if 10 < (jsTrim "abc-defghijk!".data).length
         then some (String.mk (jsTrim "abc-defghijk!".data)) else none) ∧
      parseSpotifyPlaylistId "short!" =
        (if 10 < (jsTrim "short!".data).length
         then some (String.mk (jsTrim "short!".data)) else none) :=
  ⟨parser_fallback_bare_id "abc-defghijk!" (by decide) (by decide) (by decide),
    parser_fallback_bare_id "short!" (by decide) (by decide) (by decide)⟩

section FetchLemmas

theorem length_filterMap_mTrack (items : List Item) :
    (items.filterMap mTrackOfItem).length =
      items.countP (fun it => it.track.isSome) := by
  induction items with
  | nil => rfl
  | cons it rest ih =>
    cases h : it.track with
    | none => simp [List.filterMap_cons, mTrackOfItem, h, List.countP_cons, ih]
    | some t => simp [List.filterMap_cons, mTrackOfItem, h, List.countP_cons, ih]

theorem length_filterMap_pTrack (items : List Item) :
    (items.filterMap pTrackOfItem).length =
      items.countP (fun it => it.track.isSome) := by
  induction items with
  | nil => rfl
  | cons it rest ih =>
    cases h : it.track with
    | none => simp [List.filterMap_cons, pTrackOfItem, h, List.countP_cons, ih]
    | some t => simp [List.filterMap_cons, pTrackOfItem, h, List.countP_cons, ih]

theorem length_catLists_tracksM (ps : List Page) :
    (catLists (ps.map pageTracksM)).length =
      (ps.map (fun p => p.items.countP (fun it => it.track.isSome))).sum := by
  induction ps with
  | nil => rfl
  | cons p rest ih =>
    simp [catLists, List.length_append, ih, pageTracksM, length_filterMap_mTrack]

theorem length_catLists_tracksP (ps : List Page) :
    (catLists (ps.map pageTracksP)).length =
      (ps.map (fun p => p.items.countP (fun it => it.track.isSome))).sum := by
  induction ps with
  | nil => rfl
  | cons p rest ih =>
    simp [catLists, List.length_append, ih, pageTracksP, length_filterMap_pTrack]

theorem mem_chainPages_self (p : Page) (rest : List Page) :
    p ∈ chainPages (p :: rest) := by
  by_cases hn : p.next = true <;> simp [chainPages, hn]

theorem fetchM_ok (liked : Bool) (tok : TokenKind) (pages : List Page) :
    ∀ acc : List MTrack, (∀ p ∈ chainPages pages, p.ok = true) →
      (fetchAllSpotifyTracks liked tok pages acc).1 =
        some (acc ++ catLists ((chainPages pages).map pageTracksM)) := by
  induction pages with
  | nil => intro acc _; simp [fetchAllSpotifyTracks, chainPages, catLists]
  | cons p rest ih =>
    intro acc hok
    have hp : p.ok = true := hok p (mem_chainPages_self p rest)
    by_cases hn : p.next = true
    · have h2 := ih (acc ++ pageTracksM p)
        (fun q hq => hok q (by simp [chainPages, hn]; exact Or.inr hq))
      simp [fetchAllSpotifyTracks, hp, hn, chainPages, catLists, h2,
        List.append_assoc]
    · simp [fetchAllSpotifyTracks, hp, hn, chainPages, catLists]

theorem fetchM_failStop (liked : Bool) (tok : TokenKind) (p : Page)
    (hp : p.ok = false) (post : List Page) (pre : List Page) :
    ∀ acc : List MTrack, (∀ q ∈ pre, q.ok = true ∧ q.next = true) →
      (fetchAllSpotifyTracks liked tok (pre ++ p :: post) acc).1 =
        (if acc ++ catLists (pre.map pageTracksM) = [] then none
         else some (acc ++ catLists (pre.map pageTracksM))) := by
  induction pre with
  | nil => intro acc _; simp [fetchAllSpotifyTracks, hp, catLists]
  | cons q pre ih =>
    intro acc hpre
    have hq : q.ok = true ∧ q.next = true := hpre q (by simp)
    have h2 := ih (acc ++ pageTracksM q) (fun r hr => hpre r (by simp [hr]))
    simp only [List.cons_append, fetchAllSpotifyTracks, hq.1, hq.2, if_true]
    simp [h2, catLists, List.append_assoc]

theorem fetchRm_ok (pages : List Page) :
    ∀ (n : Nat) (acc : List PTrack), (∀ p ∈ chainPages pages, p.ok = true) →
      fetchAllSpotifyTracksRm n pages acc =
        Except.ok (acc ++ catLists (((chainPages pages).take n).map pageTracksP)) := by
  induction pages with
  | nil =>
    intro n acc _
    cases n <;> simp [fetchAllSpotifyTracksRm, chainPages, catLists]
  | cons p rest ih =>
    intro n acc hok
    have hp : p.ok = true := hok p (mem_chainPages_self p rest)
    cases n with
    | zero => simp [fetchAllSpotifyTracksRm, catLists]
    | succ m =>
      by_cases hn : p.next = true
      · have h2 := ih m (acc ++ pageTracksP p)
          (fun q hq => hok q (by simp [chainPages, hn]; exact Or.inr hq))
        simp [fetchAllSpotifyTracksRm, hp, hn, chainPages, List.take_succ_cons,
          catLists, h2, List.append_assoc]
      · simp [fetchAllSpotifyTracksRm, hp, hn, chainPages, List.take_succ_cons,
          catLists]

theorem fetchLoopP0_ok (liked hasUser : Bool) (tok : TokenKind)
    (pages : List Page) :
    ∀ acc : List PTrack, (∀ p ∈ chainPages pages, p.ok = true) →
      (fetchLoopP0 liked hasUser tok pages acc).1 =
        Except.ok (acc ++ catLists ((chainPages pages).map pageTracksP)) := by
  induction pages with
  | nil => intro acc _; simp [fetchLoopP0, chainPages, catLists]
  | cons p rest ih =>
    intro acc hok
    have hp : p.ok = true := hok p (mem_chainPages_self p rest)
    have hst : 200 ≤ p.status ∧ p.status < 300 := by
      simpa [Page.ok] using hp
    have h401 : ¬(p.status = 401 ∧ liked = false ∧ hasUser = false) := by
      intro h
      rw [h.1] at hst
      omega
    by_cases hn : p.next = true
    · have h2 := ih (acc ++ pageTracksP p)
        (fun q hq => hok q (by simp [chainPages, hn]; exact Or.inr hq))
      simp [fetchLoopP0, h401, hp, hn, chainPages, catLists, h2,
        List.append_assoc]
    · simp [fetchLoopP0, h401, hp, hn, chainPages, catLists]

theorem fetchP0_ok (pid : String) (hasUser : Bool) (pages : List Page)
    (hpid : pid = likedStr → hasUser = true)
    (hok : ∀ p ∈ chainPages pages, p.ok = true) :
    (fetchAllSpotifyTracksP0 pid hasUser pages).1 =
      Except.ok (catLists ((chainPages pages).map pageTracksP)) := by
  unfold fetchAllSpotifyTracksP0
  by_cases h : pid = likedStr
  · have hu : hasUser = true := hpid h
    simpa [h, hu] using fetchLoopP0_ok true true TokenKind.user pages [] hok
  · have hbeq : (pid == likedStr) = false := by
      simpa using h
    cases hu : hasUser <;>
      simpa [hbeq, hu] using
        fetchLoopP0_ok false hasUser
          (if hasUser then TokenKind.user else TokenKind.app) pages [] hok

end FetchLemmas

/-- C5: for a paginated fetch whose pages are linked by next-cursors and all
succeed, each fetcher emits exactly one track per item with a non-null
underlying track, in original page-and-item order (the output is the
page-by-page concatenation of the non-null items), so the output count
equals the sum of non-null-track items across all pages visited - the whole
cursor chain for the `main.js` and `part_000` fetchers, the chain capped at
`MAX_PAGES` for the Readme fetcher. -/
theorem fetch_pagination_tracks (liked : Bool) (tok : TokenKind) (pid : String)
    (hasUser : Bool) (pages : List Page)
    (hpid : pid = likedStr → hasUser = true)
    (hok : ∀ p ∈ chainPages pages, p.ok = true) :
    (fetchAllSpotifyTracks liked tok pages []).1 =
        some (catLists ((chainPages pages).map pageTracksM)) ∧
      (catLists ((chainPages pages).map pageTracksM)).length =
        ((chainPages pages).map
          (fun p => p.items.countP (fun it => it.track.isSome))).sum ∧
      fetchAllSpotifyTracksRm MAX_PAGES pages [] =
        Except.ok (catLists (((chainPages pages).take MAX_PAGES).map pageTracksP)) ∧
      (catLists (((chainPages pages).take MAX_PAGES).map pageTracksP)).length =
        (((chainPages pages).take MAX_PAGES).map
          (fun p => p.items.countP (fun it => it.track.isSome))).sum ∧
      (fetchAllSpotifyTracksP0 pid hasUser pages).1 =
        Except.ok (catLists ((chainPages pages).map pageTracksP)) := by
  refine ⟨?_, length_catLists_tracksM _, ?_, length_catLists_tracksP _, ?_⟩
  · simpa using fetchM_ok liked tok pages [] hok
  · simpa using fetchRm_ok pages MAX_PAGES [] hok
  · exact fetchP0_ok pid hasUser pages hpid hok

/-- Witness for C5 on a concrete two-page chain with three non-null items
and one removed item. -/
theorem fetch_pagination_tracks_witness :
    (∀ p ∈ chainPages [pageA, pageB], p.ok = true) ∧
      ((fetchAllSpotifyTracks false TokenKind.app [pageA, pageB] []).1 =
          some (catLists ((chainPages [pageA, pageB]).map pageTracksM)) ∧
        (catLists ((chainPages [pageA, pageB]).map pageTracksM)).length =
          ((chainPages [pageA, pageB]).map
            (fun p => p.items.countP (fun it => it.track.isSome))).sum ∧
        fetchAllSpotifyTracksRm MAX_PAGES [pageA, pageB] [] =
          Except.ok
            (catLists (((chainPages [pageA, pageB]).take MAX_PAGES).map pageTracksP)) ∧
        (catLists (((chainPages [pageA, pageB]).take MAX_PAGES).map pageTracksP)).length =
          (((chainPages [pageA, pageB]).take MAX_PAGES).map
            (fun p => p.items.countP (fun it => it.track.isSome))).sum ∧
        (fetchAllSpotifyTracksP0 "PUBID" false [pageA, pageB]).1 =
          Except.ok (catLists ((chainPages [pageA, pageB]).map pageTracksP))) :=
  ⟨by decide,
    fetch_pagination_tracks false TokenKind.app "PUBID" false [pageA, pageB]
      (by decide) (by decide)⟩

/-- C9: in the streaming variant fetcher, a non-success page response never
raises: the fetch returns the tracks accumulated from the earlier successful
pages when at least one track has been gathered, and null when none have. -/
theorem fetch_partial_results_on_failure (liked : Bool) (tok : TokenKind)
    (pre : List Page) (p : Page) (post : List Page)
    (hpre : ∀ q ∈ pre, q.ok = true ∧ q.next = true) (hp : p.ok = false) :
    (fetchAllSpotifyTracks liked tok (pre ++ p :: post) []).1 =
      (if catLists (pre.map pageTracksM) = [] then none
       else some (catLists (pre.map pageTracksM))) := by
  simpa using fetchM_failStop liked tok p hp post pre [] hpre

/-- Witness for C9: one successful page then a failing page gives the
partial list; an immediately failing page gives null. -/
theorem fetch_partial_results_on_failure_witness :
    ((fetchAllSpotifyTracks false TokenKind.user [pageA, pageFail] []).1 =
        (if catLists ([pageA].map pageTracksM) = [] then none
         else some (catLists ([pageA].map pageTracksM)))) ∧
      ((fetchAllSpotifyTracks false TokenKind.user [pageFail] []).1 =
        (if catLists (([] : List Page).map pageTracksM) = [] then none
         else some (catLists (([] : List Page).map pageTracksM)))) :=
  ⟨fetch_partial_results_on_failure false TokenKind.user [pageA] pageFail []
      (by decide) (by decide),
    fetch_partial_results_on_failure false TokenKind.user [] pageFail []
      (by decide) (by decide)⟩

section LoopLemmas

theorem convertLoop_no_pnf (env : ConvEnv) (ytId : String)
    (h : ∀ v, env.insert v ≠ InsertOutcome.playlistNotFound) :
    ∀ (i : Nat) (ts : List MTrack),
      convertLoop env ytId i ts = (rowEvents env i ts, insCalls env ts, true) := by
  intro i ts
  induction ts generalizing i with
  | nil => rfl
  | cons t rest ih =>
    cases hs : env.search (mainQuery t) with
    | none => simp [convertLoop, rowEvents, rowEv, insCalls, hs, ih]
    | some vid =>
      cases hi : env.insert vid with
      | inserted => simp [convertLoop, rowEvents, rowEv, insCalls, hs, hi, ih]
      | insertFailed => simp [convertLoop, rowEvents, rowEv, insCalls, hs, hi, ih]
      | playlistNotFound => exact absurd hi (h vid)

theorem evName_rowEv (env : ConvEnv) (i : Nat) (t : MTrack) :
    evName (rowEv env i t) = some t.name := by
  cases hs : env.search (mainQuery t) with
  | none => simp [rowEv, evName, hs]
  | some vid => cases hi : env.insert vid <;> simp [rowEv, evName, hs, hi]

theorem rowEvents_filterMap_names (env : ConvEnv) :
    ∀ (i : Nat) (ts : List MTrack),
      (rowEvents env i ts).filterMap evName = ts.map MTrack.name := by
  intro i ts
  induction ts generalizing i with
  | nil => rfl
  | cons t rest ih =>
    simp [rowEvents, List.filterMap_cons, evName_rowEv, ih]

theorem rowEvents_length (env : ConvEnv) :
    ∀ (i : Nat) (ts : List MTrack), (rowEvents env i ts).length = ts.length := by
  intro i ts
  induction ts generalizing i with
  | nil => rfl
  | cons t rest ih => simp [rowEvents, ih]

theorem isOkEv_rowEv (env : ConvEnv) (i : Nat) (t : MTrack) :
    isOkEv (rowEv env i t) = successP env t := by
  cases hs : env.search (mainQuery t) with
  | none => simp [rowEv, isOkEv, successP, hs]
  | some vid =>
    cases hi : env.insert vid <;> simp [rowEv, isOkEv, successP, hs, hi]

theorem isFailEv_rowEv (env : ConvEnv) (i : Nat) (t : MTrack) :
    isFailEv (rowEv env i t) = !successP env t := by
  cases hs : env.search (mainQuery t) with
  | none => simp [rowEv, isFailEv, successP, hs]
  | some vid =>
    cases hi : env.insert vid <;> simp [rowEv, isFailEv, successP, hs, hi]

theorem rowEvents_countOk (env : ConvEnv) :
    ∀ (i : Nat) (ts : List MTrack),
      (rowEvents env i ts).countP isOkEv = ts.countP (successP env) := by
  intro i ts
  induction ts generalizing i with
  | nil => rfl
  | cons t rest ih =>
    simp [rowEvents, List.countP_cons, isOkEv_rowEv, ih]

theorem rowEvents_count_partition (env : ConvEnv) :
    ∀ (i : Nat) (ts : List MTrack),
      (rowEvents env i ts).countP isOkEv + (rowEvents env i ts).countP isFailEv =
        ts.length := by
  intro i ts
  induction ts generalizing i with
  | nil => rfl
  | cons t rest ih =>
    have h1 := isOkEv_rowEv env i t
    have h2 := isFailEv_rowEv env i t
    have h3 := ih (i + 1)
    simp only [rowEvents, List.countP_cons, h1, h2, List.length_cons]
    cases hs : successP env t <;> simp [hs] <;> omega

theorem countP_success_le_matched (env : ConvEnv) (ts : List MTrack) :
    ts.countP (successP env) ≤ ts.countP (matchedP env) := by
  induction ts with
  | nil => exact Nat.le_refl 0
  | cons t rest ih =>
    simp only [List.countP_cons]
    cases hs : successP env t with
    | false => cases hm : matchedP env t <;> simp <;> omega
    | true =>
      have hm : matchedP env t = true := by
        revert hs
        cases hq : env.search (mainQuery t) with
        | none => simp [successP, hq]
        | some vid => simp [matchedP, hq]
      simp [hm]
      omega

end LoopLemmas

section ReadmeReportLemmas

theorem rmAddVideos_added_length (insert : String → Except String Unit) :
    ∀ vs : List (Option String),
      (rmAddVideos insert vs).added.length = vs.countP (rmInsertOk insert) := by
  intro vs
  induction vs with
  | nil => rfl
  | cons v rest ih =>
    cases v with
    | none => simp [rmAddVideos, rmInsertOk, List.countP_cons, ih]
    | some vid =>
      cases hi : insert vid with
      | ok u => simp [rmAddVideos, rmInsertOk, hi, List.countP_cons, ih]
      | error e => simp [rmAddVideos, rmInsertOk, hi, List.countP_cons, ih]

theorem rmAddVideos_total_length (insert : String → Except String Unit) :
    ∀ vs : List (Option String),
      (rmAddVideos insert vs).added.length + (rmAddVideos insert vs).failed.length =
        vs.countP Option.isSome := by
  intro vs
  induction vs with
  | nil => rfl
  | cons v rest ih =>
    cases v with
    | none => simp [rmAddVideos, List.countP_cons, ih]
    | some vid =>
      cases hi : insert vid with
      | ok u =>
        simp only [rmAddVideos, hi, List.countP_cons, Option.isSome_some]
        simp
        omega
      | error e =>
        simp only [rmAddVideos, hi, List.countP_cons, Option.isSome_some]
        simp
        omega

theorem countP_filter_isSome (q : Option String → Bool) (hq : q none = false) :
    ∀ vs : List (Option String),
      (vs.filter Option.isSome).countP q = vs.countP q := by
  intro vs
  induction vs with
  | nil => rfl
  | cons v rest ih =>
    cases v with
    | none => simp [List.filter_cons, List.countP_cons, hq, ih]
    | some a => simp [List.filter_cons, List.countP_cons, ih]

theorem countP_map_query (f : PTrack → Option String) (p : Option String → Bool) :
    ∀ ts : List PTrack, (ts.map f).countP p = ts.countP (fun t => p (f t)) := by
  intro ts
  induction ts with
  | nil => rfl
  | cons t rest ih => simp [List.map_cons, List.countP_cons, ih]

theorem rmInsertCalls_shape :
    ∀ vs : List (Option String), ∀ c ∈ rmInsertCalls vs, ∃ v, c = Call.ytInsert v := by
  intro vs
  induction vs with
  | nil => intro c hc; simp [rmInsertCalls] at hc
  | cons v rest ih =>
    intro c hc
    cases v with
    | none =>
      simp only [rmInsertCalls] at hc
      exact ih c hc
    | some vid =>
      simp only [rmInsertCalls, List.mem_cons] at hc
      rcases hc with h | h
      · exact ⟨vid, h⟩
      · exact ih c h

end ReadmeReportLemmas

/-- Counterexample for C2: with two tracks both matched and an insert that
fails with the `playlistNotFound` classification on the first track, the
`main.js` loop sends the permission error and returns - the second track is
never attempted (no event and no insert call mentions it), so a failed
destination insert for one track can prevent subsequent tracks from being
attempted. -/
theorem insert_failure_aborts_loop_cex :
    convertLoop cexConv "PL" 0 [tA, tB] =
      ([Ev.fatal "Permission Error: Logged into wrong Brand Account?"],
       [Call.ytInsert "V1"], false) ∧
      ∀ ev ∈ (convertLoop cexConv "PL" 0 [tA, tB]).1, evName ev ≠ some "Song B" := by
  constructor
  · decide
  · decide

/-- C2 (amended): the per-track loop of `/stream-convert` continues to track
i+1 after a match failure or a per-item insert failure at track i, provided
the failure is not the terminal `playlistNotFound` permission error: every
track then produces exactly one per-track event carrying its name, in source
order, and the loop completes. -/
theorem per_track_failure_isolation (env : ConvEnv) (ytId : String)
    (ts : List MTrack)
    (h : ∀ v, env.insert v ≠ InsertOutcome.playlistNotFound) :
    ((convertLoop env ytId 0 ts).1).filterMap evName = ts.map MTrack.name ∧
      ((convertLoop env ytId 0 ts).1).length = ts.length ∧
      (convertLoop env ytId 0 ts).2.2 = true := by
  rw [convertLoop_no_pnf env ytId h 0 ts]
  exact ⟨rowEvents_filterMap_names env 0 ts, rowEvents_length env 0 ts, rfl⟩

/-- Witness for C2 on three tracks where the second is unmatched and every
insert is rejected non-terminally: all three tracks are still attempted. -/
theorem per_track_failure_isolation_witness :
    ((convertLoop wConv2 "PL" 0 [tA, tB, tC]).1).filterMap evName =
        [tA, tB, tC].map MTrack.name ∧
      ((convertLoop wConv2 "PL" 0 [tA, tB, tC]).1).length = [tA, tB, tC].length ∧
      (convertLoop wConv2 "PL" 0 [tA, tB, tC]).2.2 = true :=
  per_track_failure_isolation wConv2 "PL" [tA, tB, tC] (fun v => by simp [wConv2])

/-- Counterexample for C3: in the Readme `/convert` variant with two tracks
of which only the first is matched (its insert succeeding), the report
lists one added video id and no failures - the failed length is not N minus
the added length, added and failed together do not cover the N tracks, and
the unmatched second track appears in neither list. -/
theorem report_drops_unmatched_cex :
    rmConvertReport searchW3 insertW3 [ptA, ptB] =
        { added := ["VA"], failed := [] } ∧
      (rmConvertReport searchW3 insertW3 [ptA, ptB]).failed.length ≠
        [ptA, ptB].length -
          (rmConvertReport searchW3 insertW3 [ptA, ptB]).added.length ∧
      (rmConvertReport searchW3 insertW3 [ptA, ptB]).added.length +
          (rmConvertReport searchW3 insertW3 [ptA, ptB]).failed.length ≠
        [ptA, ptB].length := by
  refine ⟨by decide, by decide, by decide⟩

/-- C3 (amended): in the `main.js` streaming loop, for every run that
reaches its final report the success events equal the successful inserts
from the matched subset S (at most |S|), the failure events equal N minus
the success events, and the per-track events cover all N tracks exactly
once, in order; in the Readme `/convert` variant, unmatched tracks are
filtered out before the writer, so the report covers only the matched
subset S as video ids: added equals the successful inserts and added plus
failed equals |S|, making failed equal to |S| minus added rather than N
minus added. -/
theorem conversion_report_accounting (env : ConvEnv) (ytId : String)
    (ts : List MTrack)
    (search2 : String → Option String) (insert2 : String → Except String Unit)
    (tracks : List PTrack)
    (h : ∀ v, env.insert v ≠ InsertOutcome.playlistNotFound) :
    (((convertLoop env ytId 0 ts).1).countP isOkEv = ts.countP (successP env) ∧
      ts.countP (successP env) ≤ ts.countP (matchedP env) ∧
      ((convertLoop env ytId 0 ts).1).countP isFailEv =
        ts.length - ((convertLoop env ytId 0 ts).1).countP isOkEv ∧
      ((convertLoop env ytId 0 ts).1).filterMap evName = ts.map MTrack.name ∧
      (convertLoop env ytId 0 ts).2.2 = true) ∧
    ((rmConvertReport search2 insert2 tracks).added.length =
        (rmVideoIds search2 tracks).countP (rmInsertOk insert2) ∧
      (rmConvertReport search2 insert2 tracks).added.length +
          (rmConvertReport search2 insert2 tracks).failed.length =
        tracks.countP (fun t => (search2 (buildYouTubeQuery t)).isSome)) := by
  constructor
  · have hloop := convertLoop_no_pnf env ytId h 0 ts
    have e1 : (convertLoop env ytId 0 ts).1 = rowEvents env 0 ts := by rw [hloop]
    have e2 : (convertLoop env ytId 0 ts).2.2 = true := by rw [hloop]
    rw [e1]
    have hpart := rowEvents_count_partition env 0 ts
    have hok := rowEvents_countOk env 0 ts
    refine ⟨hok, countP_success_le_matched env ts, ?_,
      rowEvents_filterMap_names env 0 ts, e2⟩
    omega
  · constructor
    · rw [rmConvertReport, rmAddVideos_added_length insert2]
      exact countP_filter_isSome (rmInsertOk insert2) rfl (rmVideoIds search2 tracks)
    · rw [rmConvertReport, rmAddVideos_total_length insert2,
        countP_filter_isSome Option.isSome rfl (rmVideoIds search2 tracks),
        rmVideoIds,
        countP_map_query (fun t => search2 (buildYouTubeQuery t)) Option.isSome tracks]

/-- Witness for C3: the streaming loop on the spec scenario (A and C
matched, B unmatched, the insert succeeding for A and rejected for C) and
the Readme report on two tracks of which only the first is matched. -/
theorem conversion_report_accounting_witness :
    (((convertLoop wConv3 "PL" 0 [tA, tB, tC]).1).countP isOkEv =
        [tA, tB, tC].countP (successP wConv3) ∧
      [tA, tB, tC].countP (successP wConv3) ≤ [tA, tB, tC].countP (matchedP wConv3) ∧
      ((convertLoop wConv3 "PL" 0 [tA, tB, tC]).1).countP isFailEv =
        [tA, tB, tC].length - ((convertLoop wConv3 "PL" 0 [tA, tB, tC]).1).countP isOkEv ∧
      ((convertLoop wConv3 "PL" 0 [tA, tB, tC]).1).filterMap evName =
        [tA, tB, tC].map MTrack.name ∧
      (convertLoop wConv3 "PL" 0 [tA, tB, tC]).2.2 = true) ∧
    ((rmConvertReport searchW3 insertW3 [ptA, ptB]).added.length =
        (rmVideoIds searchW3 [ptA, ptB]).countP (rmInsertOk insertW3) ∧
      (rmConvertReport searchW3 insertW3 [ptA, ptB]).added.length +
          (rmConvertReport searchW3 insertW3 [ptA, ptB]).failed.length =
        [ptA, ptB].countP (fun t => (searchW3 (buildYouTubeQuery t)).isSome)) :=
  conversion_report_accounting wConv3 "PL" [tA, tB, tC] searchW3 insertW3
    [ptA, ptB] (fun v => by
      simp only [wConv3]
      split <;> simp)

section PipelineLemmas

theorem fetchM_calls_spotOnly (liked : Bool) (tok : TokenKind)
    (pages : List Page) :
    ∀ acc : List MTrack, ∀ c ∈ (fetchAllSpotifyTracks liked tok pages acc).2,
      c = Call.spotFetch liked tok := by
  induction pages with
  | nil => intro acc c hc; simp [fetchAllSpotifyTracks] at hc
  | cons p rest ih =>
    intro acc c hc
    by_cases hp : p.ok = true
    · by_cases hn : p.next = true
      · simp only [fetchAllSpotifyTracks, hp, hn, if_true, List.mem_cons] at hc
        rcases hc with h | h
        · exact h
        · exact ih _ c h
      · have hn' : p.next = false := by simpa using hn
        simp [fetchAllSpotifyTracks, hp, hn'] at hc
        exact hc
    · have hp' : p.ok = false := by simpa using hp
      simp [fetchAllSpotifyTracks, hp'] at hc
      exact hc

theorem fetchM_call_mem (liked : Bool) (tok : TokenKind) (p : Page)
    (rest : List Page) (acc : List MTrack) :
    Call.spotFetch liked tok ∈ (fetchAllSpotifyTracks liked tok (p :: rest) acc).2 := by
  by_cases hp : p.ok = true
  · by_cases hn : p.next = true
    · simp [fetchAllSpotifyTracks, hp, hn]
    · have hn' : p.next = false := by simpa using hn
      simp [fetchAllSpotifyTracks, hp, hn']
  · have hp' : p.ok = false := by simpa using hp
    simp [fetchAllSpotifyTracks, hp']

theorem convertLoop_calls_insertOnly (env : ConvEnv) (ytId : String) :
    ∀ (i : Nat) (ts : List MTrack), ∀ c ∈ (convertLoop env ytId i ts).2.1,
      ∃ v, c = Call.ytInsert v := by
  intro i ts
  induction ts generalizing i with
  | nil => intro c hc; simp [convertLoop] at hc
  | cons t rest ih =>
    intro c hc
    cases hs : env.search (mainQuery t) with
    | none =>
      simp only [convertLoop, hs] at hc
      exact ih (i + 1) c hc
    | some vid =>
      cases hi : env.insert vid with
      | inserted =>
        simp only [convertLoop, hs, hi, List.mem_cons] at hc
        rcases hc with h | h
        · exact ⟨vid, h⟩
        · exact ih (i + 1) c h
      | insertFailed =>
        simp only [convertLoop, hs, hi, List.mem_cons] at hc
        rcases hc with h | h
        · exact ⟨vid, h⟩
        · exact ih (i + 1) c h
      | playlistNotFound =>
        simp only [convertLoop, hs, hi, List.mem_cons, List.not_mem_nil,
          or_false] at hc
        exact ⟨vid, hc⟩

theorem streamPhase2_calls_shape (env : StreamEnv) (pid : Option String)
    (tok : TokenKind) (ytId0 : String) (hy : ¬ ytId0 = "") :
    ∀ c ∈ (streamPhase2 env pid tok ytId0).2,
      (∃ l t2, c = Call.spotFetch l t2) ∨ ∃ v, c = Call.ytInsert v := by
  intro c hc
  simp only [streamPhase2] at hc
  cases hfetch : (fetchAllSpotifyTracks (pid == some likedStr) tok env.pages []).1 with
  | none =>
    rw [hfetch] at hc
    exact Or.inl ⟨_, _, fetchM_calls_spotOnly _ tok env.pages [] c hc⟩
  | some tracks =>
    rw [hfetch, if_neg hy] at hc
    have hc2 : c ∈ (fetchAllSpotifyTracks (pid == some likedStr) tok env.pages []).2 ∨
        c ∈ (convertLoop env.conv ytId0 0 tracks).2.1 := by
      have h3 : c ∈ (fetchAllSpotifyTracks (pid == some likedStr) tok env.pages []).2 ++
          (convertLoop env.conv ytId0 0 tracks).2.1 := by
        simpa using hc
      exact List.mem_append.mp h3
    rcases hc2 with h | h
    · exact Or.inl ⟨_, _, fetchM_calls_spotOnly _ tok env.pages [] c h⟩
    · exact Or.inr (convertLoop_calls_insertOnly env.conv ytId0 0 tracks c h)

theorem streamPhase2_call_mem (env : StreamEnv) (pid : Option String)
    (tok : TokenKind) (ytId0 : String) (p : Page) (rest : List Page)
    (hpages : env.pages = p :: rest) :
    Call.spotFetch (pid == some likedStr) tok ∈ (streamPhase2 env pid tok ytId0).2 := by
  simp only [streamPhase2]
  cases hfetch : (fetchAllSpotifyTracks (pid == some likedStr) tok env.pages []).1 with
  | none =>
    rw [hpages]
    exact fetchM_call_mem _ tok p rest []
  | some tracks =>
    rw [hpages]
    exact List.mem_append_left _
      (List.mem_append_left _ (fetchM_call_mem _ tok p rest []))

end PipelineLemmas

/-- Counterexample for C1: in the `main.js` streaming variant, a liked-songs
request with no Spotify session falls back to the app token - the concrete
run issues a catalog request for the liked-songs endpoint carrying the app
token, and the resulting failure surfaces as the generic access-failure
error rather than a distinguishable sign-in-required error. -/
theorem liked_app_token_request_cex :
    Call.spotFetch true TokenKind.app ∈ (streamConvert envLiked "LIKED" none).2 ∧
      (streamConvert envLiked "LIKED" none).1 =
        [Ev.fatal "Spotify access failed. Check URL or privacy."] := by
  constructor <;> decide

/-- C1 (amended): the `part_000` fetcher fails fast with the
sign-in-required error and issues no catalog request when the reference is
the liked-songs sentinel and no user token is present; the `main.js`
streaming variant instead falls back to the app token and issues a
liked-songs catalog request with it. -/
theorem liked_without_user_token_behavior (pages : List Page)
    (env : StreamEnv) (purl : String)
    (hs : env.sessionSpotify = false) (hg : env.sessionGoogle = true)
    (hp : parseSpotifyPlaylistId purl = some likedStr)
    (p0 : Page) (rest0 : List Page) (hpages : env.pages = p0 :: rest0) :
    fetchAllSpotifyTracksP0 likedStr false pages =
        (Except.error FetchErr.signInRequired, []) ∧
      Call.spotFetch true TokenKind.app ∈ (streamConvert env purl none).2 := by
  constructor
  · simp [fetchAllSpotifyTracksP0]
  · simp only [streamConvert, hg, hs, hp]
    have hmem := streamPhase2_call_mem env (some likedStr) TokenKind.app ""
      p0 rest0 hpages
    simpa using hmem

/-- Witness for C1 against the concrete environment of the counterexample. -/
theorem liked_without_user_token_behavior_witness :
    fetchAllSpotifyTracksP0 likedStr false [pageFail] =
        (Except.error FetchErr.signInRequired, []) ∧
      Call.spotFetch true TokenKind.app ∈ (streamConvert envLiked "LIKED" none).2 :=
  liked_without_user_token_behavior [pageFail] envLiked "LIKED" rfl rfl
    (by decide) pageFail [] rfl

/-- Counterexample for C4: the Readme writer with a supplied nonexistent
existing id performs no lookup at all - the whole call trace of the run is
the single item insert (which fails), the failure is recorded per-item in
the report, and the function returns normally with the supplied id rather
than raising a fatal creation error. -/
theorem readme_writer_no_lookup_cex :
    rmCreateAndAddVideos (Except.ok "NEWID")
        (fun _ => Except.error "playlistNotFound") "T" [some "V1"]
        (some "GHOST") =
      (Except.ok ("GHOST",
        { added := [], failed := [("V1", "playlistNotFound")] }),
       [Call.ytInsert "V1"]) ∧
      ∀ idq, Call.ytLookup idq ∉
        (rmCreateAndAddVideos (Except.ok "NEWID")
          (fun _ => Except.error "playlistNotFound") "T" [some "V1"]
          (some "GHOST")).2 := by
  constructor
  · rfl
  · intro idq hmem
    have htr : (rmCreateAndAddVideos (Except.ok "NEWID")
        (fun _ => Except.error "playlistNotFound") "T" [some "V1"]
        (some "GHOST")).2 = [Call.ytInsert "V1"] := by decide
    rw [htr] at hmem
    simp at hmem

/-- C4 (amended): in the `main.js` streaming variant, a supplied non-empty
existing destination id is looked up before any insert - a lookup reporting
zero items terminates the run with the not-found error after exactly the
lookup call, and when the lookup confirms the id, the lookup is the first
destination call and no playlist-creation call ever happens; the Readme
writer performs no lookup: a supplied existing id is used directly, a
nonexistent id surfaces only as per-item insert failures with a normal
non-fatal return, and its call trace contains only item inserts (so it too
never silently creates a playlist in place of an existing id). -/
theorem existing_playlist_id_validated (env : StreamEnv) (purl eid : String)
    (createdId : Except String String) (insertR : String → Except String Unit)
    (ttl0 : String) (videoIds : List (Option String)) (s2 : String)
    (hg : env.sessionGoogle = true)
    (hid : jsTrim eid.data ≠ [])
    (hs2 : ¬ s2 = "") :
    (env.lookupItems (String.mk (jsTrim eid.data)) = Except.ok 0 →
       streamConvert env purl (some eid) =
         ([Ev.fatal "YouTube Playlist ID not found."],
          [Call.ytLookup (String.mk (jsTrim eid.data))])) ∧
      (∀ n, env.lookupItems (String.mk (jsTrim eid.data)) = Except.ok (n + 1) →
        (streamConvert env purl (some eid)).2.head? =
            some (Call.ytLookup (String.mk (jsTrim eid.data))) ∧
          ∀ ttl, Call.ytCreate ttl ∉ (streamConvert env purl (some eid)).2) ∧
      (rmCreateAndAddVideos createdId insertR ttl0 videoIds (some s2)).1 =
        Except.ok (s2, rmAddVideos insertR videoIds) ∧
      ∀ c ∈ (rmCreateAndAddVideos createdId insertR ttl0 videoIds (some s2)).2,
        ∃ v, c = Call.ytInsert v := by
  have hne : ¬ String.mk (jsTrim eid.data) = "" := by
    intro hcontra
    apply hid
    have h2 : (String.mk (jsTrim eid.data)).data = ("" : String).data := by
      rw [hcontra]
    simpa using h2
  refine ⟨?_, ?_, ?_, ?_⟩
  · intro h0
    simp only [streamConvert, hg]
    simp [hne, h0]
  · intro n hn
    constructor
    · simp only [streamConvert, hg]
      simp [hne, hn]
    · intro ttl hmem
      simp only [streamConvert, hg] at hmem
      simp [hne, hn] at hmem
      rcases streamPhase2_calls_shape env _ _ _ hne (Call.ytCreate ttl) hmem with
        ⟨l, t2, hh⟩ | ⟨v, hh⟩ <;> simp at hh
  · simp [rmCreateAndAddVideos, hs2]
  · intro c hc
    simp only [rmCreateAndAddVideos, hs2, if_neg] at hc
    exact rmInsertCalls_shape videoIds c hc

/-- Witness for C4: a destination knowing `PLOK` but not `PLX` for the
streaming variant, and the Readme writer with the existing id `PLOK`. -/
theorem existing_playlist_id_validated_witness :
    streamConvert envLookup "https://open.spotify.com/playlist/AbCdEfG18" (some "PLX") =
        ([Ev.fatal "YouTube Playlist ID not found."],
         [Call.ytLookup (String.mk (jsTrim "PLX".data))]) ∧
      ((streamConvert envLookup "https://open.spotify.com/playlist/AbCdEfG18"
            (some "PLOK")).2.head? =
          some (Call.ytLookup (String.mk (jsTrim "PLOK".data))) ∧
        ∀ ttl, Call.ytCreate ttl ∉
          (streamConvert envLookup "https://open.spotify.com/playlist/AbCdEfG18"
            (some "PLOK")).2) ∧
      (rmCreateAndAddVideos (Except.ok "NEWID") insertW3 "T"
          [some "V1", none] (some "PLOK")).1 =
        Except.ok ("PLOK", rmAddVideos insertW3 [some "V1", none]) ∧
      ∀ c ∈ (rmCreateAndAddVideos (Except.ok "NEWID") insertW3 "T"
          [some "V1", none] (some "PLOK")).2,
        ∃ v, c = Call.ytInsert v :=
  ⟨(existing_playlist_id_validated envLookup
      "https://open.spotify.com/playlist/AbCdEfG18" "PLX" (Except.ok "NEWID")
      insertW3 "T" [some "V1", none] "PLOK" rfl (by decide) (by decide)).1 rfl,
    ((existing_playlist_id_validated envLookup
      "https://open.spotify.com/playlist/AbCdEfG18" "PLOK" (Except.ok "NEWID")
      insertW3 "T" [some "V1", none] "PLOK" rfl (by decide) (by decide)).2.1 0 rfl),
    ((existing_playlist_id_validated envLookup
      "https://open.spotify.com/playlist/AbCdEfG18" "PLOK" (Except.ok "NEWID")
      insertW3 "T" [some "V1", none] "PLOK" rfl (by decide) (by decide)).2.2.1),
    ((existing_playlist_id_validated envLookup
      "https://open.spotify.com/playlist/AbCdEfG18" "PLOK" (Except.ok "NEWID")
      insertW3 "T" [some "V1", none] "PLOK" rfl (by decide) (by decide)).2.2.2)⟩

/-- C7: the matchers of both variants are total toward their callers: for
every search oracle, timeout behavior and query, the result is either null
or the id of the first video of a successfully resolved non-empty result
list; in particular search rejections, timeouts and empty result lists all
yield null, and no error propagates. -/
theorem matcher_total_null_on_failure
    (yts : String → Except String (Option SearchResult))
    (slow : String → Bool) (q : String) :
    (searchYouTubeMostViewed yts slow q = none ∨
        ∃ r v tail, yts q = Except.ok (some r) ∧ r.videos = v :: tail ∧
          slow q = false ∧ searchYouTubeMostViewed yts slow q = some v.videoId) ∧
      (searchYouTube yts q = none ∨
        ∃ r v tail, yts q = Except.ok (some r) ∧ r.videos = v :: tail ∧
          searchYouTube yts q = some v.videoId) := by
  constructor
  · by_cases hS : slow q = true
    · exact Or.inl (by
        simp [searchYouTubeMostViewed, searchYouTubeMostViewedBody, hS])
    · have hS' : slow q = false := by simpa using hS
      cases hy : yts q with
      | error e =>
        exact Or.inl (by
          simp [searchYouTubeMostViewed, searchYouTubeMostViewedBody, hS', hy])
      | ok ro =>
        cases ro with
        | none =>
          exact Or.inl (by
            simp [searchYouTubeMostViewed, searchYouTubeMostViewedBody, hS', hy])
        | some r =>
          cases hv : r.videos with
          | nil =>
            exact Or.inl (by
              simp [searchYouTubeMostViewed, searchYouTubeMostViewedBody, hS',
                hy, hv])
          | cons v tail =>
            exact Or.inr ⟨r, v, tail, rfl, hv, hS', by
              simp [searchYouTubeMostViewed, searchYouTubeMostViewedBody, hS',
                hy, hv]⟩
  · cases hy : yts q with
    | error e =>
      exact Or.inl (by simp [searchYouTube, searchYouTubeBody, hy])
    | ok ro =>
      cases ro with
      | none => exact Or.inl (by simp [searchYouTube, searchYouTubeBody, hy])
      | some r =>
        cases hv : r.videos with
        | nil => exact Or.inl (by simp [searchYouTube, searchYouTubeBody, hy, hv])
        | cons v tail =>
          exact Or.inr ⟨r, v, tail, rfl, hv, by
            simp [searchYouTube, searchYouTubeBody, hy, hv]⟩

/-- Counterexample for C8: the `main.js` streaming variant creates the
playlist with the resolved title sent as-is - a run whose Spotify
playlist-name fetch returns a 101-character name issues a creation call
carrying that name untruncated, and the corresponding request body has a
title longer than 100 characters. -/
theorem main_create_title_untruncated_cex :
    Call.ytCreate longTitle ∈
        (streamConvert envLongName
          "https://open.spotify.com/playlist/AbCdEfG18" none).2 ∧
      (mainCreatePlaylistBody longTitle).title.length = 101 ∧
      100 < (mainCreatePlaylistBody longTitle).title.length := by
  refine ⟨by decide, by decide, by decide⟩

/-- C8 (amended): when no existing destination id is supplied, the
`part_000` writer creates a playlist whose title is truncated to at most
100 characters, whose description is truncated to at most 5000 characters,
and whose visibility is `private`; the `main.js` streaming variant also
creates with visibility `private`, but sends the resolved title as-is
(no truncation) and no description. -/
theorem create_playlist_truncation_private (title description title2 : String) :
    (createYouTubePlaylistBody title description).title.length ≤ 100 ∧
      (createYouTubePlaylistBody title description).description.length ≤ 5000 ∧
      (createYouTubePlaylistBody title description).privacyStatus = "private" ∧
      (mainCreatePlaylistBody title2).title = title2 ∧
      (mainCreatePlaylistBody title2).privacyStatus = "private" := by
  have hlen : ∀ (l : List Char) (n : Nat), (String.mk (l.take n)).length ≤ n := by
    intro l n
    show (l.take n).length ≤ n
    rw [List.length_take]
    exact Nat.min_le_left n l.length
  exact ⟨hlen _ 100, hlen _ 5000, rfl, rfl, rfl⟩

end TuneChange
